import Mathlib

/-!
Verification of the training-orchestration module `allennlp/commands/train.py`
(functions `train_model_from_file`, `train_model`, `_train_worker`, and the class
`TrainModel` with its `run`, `finish` and `from_partial_objects` members).

The module is sequential glue code: it threads a configuration tree through a fixed
construction order and delegates all numeric work to external collaborators
(the dataset reader, `Vocabulary.from_instances`, `Model`/`Trainer` constructors,
`torch.distributed`, `archive_model`, `Model.load`).  We embed the module shallowly:

* external collaborators are uninterpreted function parameters;
* every observable side effect of the module (directory creation, config dump,
  vocabulary construction, worker spawn, `torch.cuda.set_device`,
  `dist.init_process_group`, `trainer.train()`, archival, `metrics.json` dump, ...)
  is recorded, in program order, in an explicit list of `Event`s;
* the exceptional control flow (`ConfigurationError`, `KeyboardInterrupt`,
  a `TypeError` from `len(None)`) is an `Except` / outcome value.

Machine data that the module never computes with (instances, vocabularies, models,
iterators) are opaque naturals.
-/

/-- An opaque dataset instance (the module never inspects instances). -/
abbrev Inst := Nat

/-- An opaque vocabulary value (produced by `Vocabulary.from_instances` or a
configured constructor; the module only passes it along). -/
abbrev Vocab := Nat

/-- An opaque model value. -/
abbrev Model := Nat

/-- An opaque data iterator value. -/
abbrev Iterator := Nat

/-- Training metrics, as returned by `trainer.train()`: a string-keyed record. -/
abbrev Metrics := List (String × Int)

/-- The `"vocabulary"` entry of the configuration tree.  `fromConfig` stands for
whatever the user wrote there (opaque); `train_model` overwrites it in distributed
mode with a `from_files` entry (train.py lines 292-297). -/
inductive VocabSetting where
  | fromConfig (raw : Nat)
  | fromFiles (directory : String) (paddingToken : String) (oovToken : String)
deriving DecidableEq, Repr

/-- The `"trainer"` sub-dictionary of the configuration, restricted to the keys the
module writes (train.py lines 410-412). -/
structure TrainerParams where
  cudaDevice : Option Nat
  worldSize : Option Nat
  distributed : Option Bool
deriving DecidableEq, Repr

/-- The `"distributed"` sub-dictionary of the configuration: `cuda_devices` is
`some ids` when the user supplied a list (`none` models both an absent key and a
non-list value, which `isinstance(device_ids, list)` treats alike), and the other
keys are popped with defaults (train.py lines 265-276). -/
structure DistParams where
  cudaDevices : Option (List Nat)
  numNodes : Option Nat
  masterAddress : Option String
  masterPort : Option Nat
deriving DecidableEq, Repr

/-- The configuration tree (`Params`), restricted to the keys this module reads or
writes; `rest` is the opaque remainder of the experiment configuration. -/
structure Params where
  distributed : Option DistParams
  vocabulary : VocabSetting
  trainer : TrainerParams
  rest : Nat
deriving DecidableEq, Repr

/-- One observable action of the module, recorded in program order. -/
inductive Event where
  | loadParams (file : String) (overridesJson : String)
  | createSerializationDir
  | writeConfig
  | checkForGpu
  | makeVocabFromParams
  | spawnWorker (rank : Nat)
  | prepareLogging (rank : Nat) (worldSize : Nat)
  | prepareEnvironment
  | importSubmodules (pkg : String)
  | setProcsPerNodeEnv (n : Nat)
  | setTrainerCudaDevice (gpu : Nat)
  | setTorchCudaDevice (gpu : Nat)
  | initProcessGroup (globalRank : Nat) (worldSize : Nat)
  | buildTrainLoop (vocab : VocabSetting) (trainerCudaDevice : Option Nat) (localRank : Nat)
  | barrier
  | runTrainer
  | archiveModel (dir : String)
  | dumpMetrics (path : String)
  | evaluate
  | loadModel (dir : String)
  | readDatasets
  | constructVocab (insts : List Inst)
  | constructModel (vocab : Vocab)
  | saveVocabulary (path : String)
  | indexIterator
  | constructTrainer (model : Model) (iterator : Iterator)
      (trainData : List Inst) (validationData : Option (List Inst))
deriving DecidableEq, Repr

/-- Whether an event is the spawning of a worker process. -/
def Event.isSpawn : Event → Bool
  | Event.spawnWorker _ => true
  | _ => false

/-- The trainer object built by `trainer.construct(...)`.  Its `train()` method is
external; we record only its result: `Except.error ()` models training being
interrupted by a `KeyboardInterrupt`, `Except.ok m` a normal completion with
metrics `m`. -/
structure TrainerBase where
  trainResult : Except Unit Metrics
  cudaDevice : Nat

/-- `TrainerBase.train` — the external training entry point (train.py line 498
calls it; its body lives outside this module). -/
def TrainerBase.train (t : TrainerBase) : Except Unit Metrics := t.trainResult

/-- The `TrainModel` object (train.py lines 479-495): the fields set by
`__init__`. -/
structure TrainModel where
  serializationDir : String
  model : Model
  trainer : TrainerBase
  evaluationDataset : Option (List Inst)
  evaluationIterator : Iterator
  evaluateOnTest : Bool
  batchWeightKey : String

/-- `TrainModel.run` (train.py lines 497-498): `return self.trainer.train()`. -/
def TrainModel.run (tm : TrainModel) : Except Unit Metrics := tm.trainer.train

/-- `TrainModel.finish` (train.py lines 500-520): optionally evaluates on the test
set, then dumps `metrics.json`.  `evaluateFn` is the external
`training_util.evaluate`.  Returns the final metrics and the recorded events. -/
def TrainModel.finish (tm : TrainModel) (evaluateFn : Model → List Inst → Metrics)
    (metrics : Metrics) : Metrics × List Event :=
  let dsTruthy : Bool :=
    match tm.evaluationDataset with
    | some ds => !ds.isEmpty
    | none => false
  let path := tm.serializationDir ++ "/metrics.json"
  if dsTruthy && tm.evaluateOnTest then
    let testMetrics := evaluateFn tm.model (tm.evaluationDataset.getD [])
    (metrics ++ testMetrics.map (fun kv => ("test_" ++ kv.1, kv.2)),
     [Event.evaluate, Event.dumpMetrics path])
  else
    (metrics, [Event.dumpMetrics path])

/-- The ways `_train_worker` can terminate abnormally: a re-raised
`KeyboardInterrupt` (train.py line 446), or the `TypeError`/`IndexError` that
`len(distributed_device_ids)` / `distributed_device_ids[process_rank]` raises when
no proper device list reaches a distributed worker. -/
inductive WorkerError where
  | keyboardInterrupt
  | typeError
deriving DecidableEq, Repr

/-- The part of `_train_worker` after the distributed setup (train.py lines
426-454): build the train loop via `TrainModel.from_params` (abstracted as
`buildLoop`, which receives the — possibly mutated — params and the local rank),
run it guarded by the `KeyboardInterrupt` handler (lines 433-446), let the master
call `finish` (lines 448-449), and return the model exactly when not distributed
(lines 451-454). -/
def train_worker_run (buildLoop : Params → Nat → TrainModel)
    (evaluateFn : Model → List Inst → Metrics) (weightsExist : Bool)
    (processRank : Nat) (serializationDir : String) (distributed : Bool)
    (params : Params) (setupEvs : List Event) :
    Except WorkerError (Option Model) × List Event :=
  let loop := buildLoop params processRank
  let evs1 := setupEvs
      ++ [Event.buildTrainLoop params.vocabulary params.trainer.cudaDevice processRank]
      ++ (if distributed then [Event.barrier] else []) ++ [Event.runTrainer]
  match loop.run with
  | Except.error _ =>
      (Except.error WorkerError.keyboardInterrupt,
       evs1 ++ (if processRank == 0 && weightsExist
                then [Event.archiveModel serializationDir] else []))
  | Except.ok metrics =>
      (Except.ok (if distributed then none else some loop.model),
       evs1 ++ (if processRank == 0 then (loop.finish evaluateFn metrics).2 else []))

/-- `_train_worker` (train.py lines 324-454).  `weightsExist` models
`os.path.exists(os.path.join(serialization_dir, _DEFAULT_WEIGHTS))`.  In
distributed mode (`world_size > 1`) it re-imports the extra packages, computes
`global_rank = node_rank * len(distributed_device_ids) + process_rank`, picks
`gpu_id = distributed_device_ids[process_rank]`, writes `cuda_device`,
`world_size` and `distributed` into the trainer params (lines 410-412), sets the
torch device and initializes the process group (lines 414-420). -/
def train_worker (buildLoop : Params → Nat → TrainModel)
    (evaluateFn : Model → List Inst → Metrics) (weightsExist : Bool)
    (processRank : Nat) (params : Params) (serializationDir : String)
    (includePackage : Option (List String))
    (nodeRank : Nat) (worldSize : Nat)
    (distributedDeviceIds : Option (List Nat)) :
    Except WorkerError (Option Model) × List Event :=
  let ev0 : List Event := [Event.prepareLogging processRank worldSize, Event.prepareEnvironment]
  if 1 < worldSize then
    let importEvs := (includePackage.getD []).map Event.importSubmodules
    match distributedDeviceIds with
    | none => (Except.error WorkerError.typeError, ev0 ++ importEvs)
    | some ids =>
        match ids[processRank]? with
        | none =>
            (Except.error WorkerError.typeError,
             ev0 ++ importEvs ++ [Event.setProcsPerNodeEnv ids.length])
        | some gpuId =>
            let params1 : Params :=
              { params with trainer :=
                  { params.trainer with
                      cudaDevice := some gpuId
                      worldSize := some worldSize
                      distributed := some true } }
            train_worker_run buildLoop evaluateFn weightsExist processRank
              serializationDir true params1
              (ev0 ++ importEvs
               ++ [Event.setProcsPerNodeEnv ids.length,
                   Event.setTrainerCudaDevice gpuId,
                   Event.setTorchCudaDevice gpuId,
                   Event.initProcessGroup (nodeRank * ids.length + processRank) worldSize])
  else
    train_worker_run buildLoop evaluateFn weightsExist processRank
      serializationDir false params ev0

/-- `isinstance(device_ids, list) and len(device_ids) > 1` (train.py line 266). -/
def multiDevice (d : Option (List Nat)) : Bool :=
  match d with
  | some ids => decide (ids.length > 1)
  | none => false

/-- How `train_model` can terminate: normally with the returned model (possibly
`None`), with the `ConfigurationError` of line 270, by propagating a worker's
`KeyboardInterrupt`, or by a `TypeError` crash. -/
inductive TrainOutcome where
  | ok (model : Option Model)
  | configError
  | interrupted
  | crash
deriving DecidableEq, Repr

/-- The params every distributed worker receives: `"distributed"` popped
(line 242) and `"vocabulary"` replaced by the `from_files` entry pointing at
`<serialization_dir>/vocabulary` with the padding/OOV tokens of the vocabulary
that `make_vocab_from_params` built and saved (lines 291-297).
`makeVocabTokens` abstracts `training_util.make_vocab_from_params`, returning the
`(_padding_token, _oov_token)` pair of the vocabulary it wrote to disk. -/
def distWorkerParams (makeVocabTokens : Params → String × String)
    (params : Params) (serializationDir : String) : Params :=
  let params1 : Params := { params with distributed := none }
  let tokens := makeVocabTokens params1
  { params1 with
      vocabulary := VocabSetting.fromFiles (serializationDir ++ "/vocabulary")
        tokens.1 tokens.2 }

/-- `mp.spawn(f, nprocs := n)`: workers `0, ..., n-1` each run and contribute
their events (serialized here in rank order). -/
def spawnAll (f : Nat → List Event) : Nat → List Event
  | 0 => []
  | n + 1 => spawnAll f n ++ f n

/-- Whether a worker terminated normally. -/
def isOkB (e : Except WorkerError (Option Model)) : Bool :=
  match e with
  | Except.ok _ => true
  | Except.error _ => false

/-- `train_model` (train.py lines 186-321).  It first creates the serialization
directory and writes the config (lines 239-240), then pops `"distributed"`:
if absent it runs `_train_worker` in-process with `process_rank = 0` and archives
(lines 245-259); otherwise it validates the device configuration (lines 265-272),
builds and saves the vocabulary before spawning (lines 291-297), spawns
`len(device_ids)` workers with `world_size = num_nodes * len(device_ids)`
(lines 299-318), archives and returns `Model.load(params, serialization_dir)`
(lines 319-321).  `loadModel` abstracts `Model.load`. -/
def train_model_core (buildLoop : Params → Nat → TrainModel)
    (evaluateFn : Model → List Inst → Metrics) (weightsExist : Bool)
    (makeVocabTokens : Params → String × String)
    (loadModel : Params → String → Model)
    (params : Params) (serializationDir : String) (nodeRank : Nat)
    (includePackage : Option (List String)) :
    TrainOutcome × List Event :=
  match params.distributed with
  | none =>
      let w := train_worker buildLoop evaluateFn weightsExist 0
        { params with distributed := none } serializationDir includePackage 0 1 none
      match w.1 with
      | Except.ok m => (TrainOutcome.ok m, w.2 ++ [Event.archiveModel serializationDir])
      | Except.error WorkerError.keyboardInterrupt => (TrainOutcome.interrupted, w.2)
      | Except.error WorkerError.typeError => (TrainOutcome.crash, w.2)
  | some dp =>
      if multiDevice dp.cudaDevices ∨ dp.numNodes.getD 1 > 1 then
        match dp.cudaDevices with
        | none => (TrainOutcome.crash, [Event.checkForGpu])
        | some ids =>
            let numProcs := ids.length
            let worldSize := dp.numNodes.getD 1 * numProcs
            let params2 := distWorkerParams makeVocabTokens params serializationDir
            let runW := fun i => train_worker buildLoop evaluateFn weightsExist i
              params2 serializationDir includePackage nodeRank worldSize (some ids)
            let ok := (List.range numProcs).all (fun i => isOkB (runW i).1)
            ((if ok then TrainOutcome.ok (some (loadModel params2 serializationDir))
              else TrainOutcome.interrupted),
             [Event.checkForGpu, Event.makeVocabFromParams]
             ++ spawnAll (fun i => Event.spawnWorker i :: (runW i).2) numProcs
             ++ (if ok then [Event.archiveModel serializationDir,
                             Event.loadModel serializationDir] else []))
      else (TrainOutcome.configError, [])

/-- `train_model` = create the serialization directory and write the config
(train.py lines 239-240), then run `train_model_core` (the branch on
`"distributed"`, lines 242-321). -/
def train_model (buildLoop : Params → Nat → TrainModel)
    (evaluateFn : Model → List Inst → Metrics) (weightsExist : Bool)
    (makeVocabTokens : Params → String × String)
    (loadModel : Params → String → Model)
    (params : Params) (serializationDir : String) (nodeRank : Nat)
    (includePackage : Option (List String)) :
    TrainOutcome × List Event :=
  let core := train_model_core buildLoop evaluateFn weightsExist makeVocabTokens
    loadModel params serializationDir nodeRank includePackage
  (core.1, Event.createSerializationDir :: Event.writeConfig :: core.2)

/-- `train_model_from_file` (train.py lines 137-183): load the params from the
parameter file, applying the JSON overrides (`Params.from_file`, abstracted as
`paramsFromFile`), then call `train_model`. -/
def train_model_from_file (paramsFromFile : String → String → Params)
    (buildLoop : Params → Nat → TrainModel)
    (evaluateFn : Model → List Inst → Metrics) (weightsExist : Bool)
    (makeVocabTokens : Params → String × String)
    (loadModel : Params → String → Model)
    (parameterFilename : String) (serializationDir : String)
    (overridesJson : String) (nodeRank : Nat)
    (includePackage : Option (List String)) :
    TrainOutcome × List Event :=
  let params := paramsFromFile parameterFilename overridesJson
  let out := train_model buildLoop evaluateFn weightsExist makeVocabTokens loadModel
    params serializationDir nodeRank includePackage
  (out.1, Event.loadParams parameterFilename overridesJson :: out.2)

/-- Modelled from the spec: `training_util.read_all_datasets` (called at train.py
line 604) is repository code that is not among the provided sources.  Per its
documented contract (train.py lines 583-597: valid dataset keys are "train",
"validation" and "test"; validation/test data exist exactly when their paths are
given) it reads the training data always and the validation/test data exactly when
`validation_data_path` / `test_data_path` are supplied, returning a dictionary
keyed by "train", "validation", "test".  `readData` abstracts the dataset
readers' `read`.  `optDataset` is the entry for one optional path. -/
def optDataset (readData : String → List Inst) (k : String) :
    Option String → List (String × List Inst)
  | some p => [(k, readData p)]
  | none => []

/-- Modelled from the spec (see `optDataset`): the dictionary of read datasets —
"train" always, "validation" and "test" exactly when their paths are given. -/
def read_all_datasets (readData : String → List Inst) (trainDataPath : String)
    (validationDataPath : Option String) (testDataPath : Option String) :
    List (String × List Inst) :=
  [("train", readData trainDataPath)]
  ++ optDataset readData "validation" validationDataPath
  ++ optDataset readData "test" testDataPath

/-- The instances fed to vocabulary construction (train.py lines 617-622): all
instances of the datasets whose key is listed in `datasets_for_vocab_creation`,
or of every dataset when that list is absent or empty. -/
def vocabCreationInstances (datasets : List (String × List Inst))
    (dfvc : List String) : List Inst :=
  (datasets.filter (fun kv => dfvc.isEmpty || dfvc.contains kv.1)).flatMap
    (fun kv => kv.2)

/-- The vocabulary value of train.py lines 624-626: the configured lazy
constructor when present, else `Vocabulary.from_instances` (abstracted as
`vocabFromInstances`). -/
def constructedVocabulary (vocabulary : Option (List Inst → Vocab))
    (vocabFromInstances : List Inst → Vocab) (insts : List Inst) : Vocab :=
  match vocabulary with
  | some construct => construct insts
  | none => vocabFromInstances insts

/-- `TrainModel.from_partial_objects` (train.py lines 522-659).  The lazy
dependencies are uninterpreted constructor functions: `model` receives the
vocabulary (`model.construct(vocab=vocabulary_)`, line 627), `trainer` receives
the model, the iterator and the training/validation data (lines 643-649).
`isMaster` abstracts `common_util.is_master()` (line 632).  A `ConfigurationError`
(lines 612-615) is `Except.error`. -/
def TrainModel.from_partial_objects
    (readData : String → List Inst) (vocabFromInstances : List Inst → Vocab)
    (isMaster : Bool)
    (serializationDir : String) (localRank : Nat) (batchWeightKey : String)
    (trainDataPath : String)
    (model : Vocab → Model)
    (iterator : Iterator)
    (trainer : Model → Iterator → List Inst → Option (List Inst) → TrainerBase)
    (vocabulary : Option (List Inst → Vocab))
    (datasetsForVocabCreation : Option (List String))
    (validationDataPath : Option String)
    (validationIterator : Option Iterator)
    (testDataPath : Option String)
    (evaluateOnTest : Bool) :
    Except String TrainModel × List Event :=
  let datasets := read_all_datasets readData trainDataPath validationDataPath testDataPath
  let dfvc := datasetsForVocabCreation.getD []
  if dfvc.any (fun k => (List.lookup k datasets).isNone) then
    (Except.error "invalid dataset_for_vocab_creation", [Event.readDatasets])
  else
    let instanceGenerator := vocabCreationInstances datasets dfvc
    let vocabulary1 := constructedVocabulary vocabulary vocabFromInstances instanceGenerator
    let model1 := model vocabulary1
    let validationIterator1 := validationIterator.getD iterator
    let trainData := (List.lookup "train" datasets).getD []
    let validationData := List.lookup "validation" datasets
    let trainer1 := trainer model1 iterator trainData validationData
    (Except.ok
      { serializationDir := serializationDir
        model := model1
        trainer := trainer1
        evaluationDataset := List.lookup "test" datasets
        evaluationIterator := validationIterator1
        evaluateOnTest := evaluateOnTest
        batchWeightKey := batchWeightKey },
     [Event.readDatasets,
      Event.constructVocab instanceGenerator,
      Event.constructModel vocabulary1]
     ++ (if isMaster then [Event.saveVocabulary (serializationDir ++ "/vocabulary")] else [])
     ++ [Event.indexIterator, Event.indexIterator,
         Event.constructTrainer model1 iterator trainData validationData])

/-! ## Helper lemmas -/

/-- Membership in an all-`p` prefix survives `takeWhile p` of the appended list. -/
theorem mem_takeWhile_append {α : Type} {p : α → Bool} {a : α} :
    ∀ {l1 : List α}, a ∈ l1 → (∀ x ∈ l1, p x = true) →
      ∀ l2 : List α, a ∈ (l1 ++ l2).takeWhile p
  | [], h, _, _ => by cases h
  | b :: bs, h, hall, l2 => by
      have hb : p b = true := hall b (List.mem_cons_self b bs)
      have ih := fun (h2 : a ∈ bs) =>
        mem_takeWhile_append h2 (fun x hx => hall x (List.mem_cons_of_mem b hx)) l2
      rcases List.mem_cons.mp h with h | h
      · simp [List.takeWhile_cons, hb, h]
      · rw [List.cons_append, List.takeWhile_cons, if_pos hb]
        exact List.mem_cons_of_mem b (ih h)

/-- Splitting the serialized spawn section at worker `i`. -/
theorem spawnAll_split (f : Nat → List Event) :
    ∀ n i, i < n → ∃ pre post, spawnAll f n = pre ++ f i ++ post
  | 0, i, h => absurd h (Nat.not_lt_zero i)
  | n + 1, i, h => by
      rcases Nat.lt_succ_iff_lt_or_eq.mp h with h | h
      · obtain ⟨pre, post, hsplit⟩ := spawnAll_split f n i h
        exact ⟨pre, post ++ f n, by simp [spawnAll, hsplit]⟩
      · exact ⟨spawnAll f n, [], by simp [spawnAll, h]⟩

/-- In the dataset dictionary, the key `"train"` is always bound to the data read
from `train_data_path`. -/
theorem lookup_train_read_all (readData : String → List Inst) (trainDataPath : String)
    (vp tp : Option String) :
    List.lookup "train" (read_all_datasets readData trainDataPath vp tp)
      = some (readData trainDataPath) := by
  simp [read_all_datasets, List.lookup]

/-! ## Claim theorems -/

/-- C6: `TrainModel.run` performs no training logic of its own: for every
`TrainModel` instance, `run ()` returns exactly the result of calling
`self.trainer.train()`. -/
theorem TrainModel_run_delegates (tm : TrainModel) :
    tm.run = tm.trainer.train := rfl

/-- C5: the orchestration is strictly sequential: `train_model_from_file` first
loads the params from the parameter file (applying the JSON overrides) and only
then calls `train_model` on the result, and `train_model` records the creation of
the serialization directory and the config dump as its first two actions — before
any worker runs, any lazy object is constructed, the trainer runs, or the archiver
is invoked. -/
theorem train_model_from_file_sequential (paramsFromFile : String → String → Params)
    (buildLoop : Params → Nat → TrainModel)
    (evaluateFn : Model → List Inst → Metrics) (weightsExist : Bool)
    (makeVocabTokens : Params → String × String)
    (loadModel : Params → String → Model)
    (parameterFilename serializationDir overridesJson : String) (nodeRank : Nat)
    (includePackage : Option (List String)) :
    (train_model_from_file paramsFromFile buildLoop evaluateFn weightsExist
        makeVocabTokens loadModel parameterFilename serializationDir overridesJson
        nodeRank includePackage).1
      = (train_model buildLoop evaluateFn weightsExist makeVocabTokens loadModel
          (paramsFromFile parameterFilename overridesJson) serializationDir nodeRank
          includePackage).1
    ∧ ∃ rest,
        (train_model_from_file paramsFromFile buildLoop evaluateFn weightsExist
            makeVocabTokens loadModel parameterFilename serializationDir overridesJson
            nodeRank includePackage).2
          = Event.loadParams parameterFilename overridesJson
            :: Event.createSerializationDir :: Event.writeConfig :: rest :=
  ⟨rfl, _, rfl⟩

/-- C10: when the params contain a `"distributed"` key, `train_model` raises a
`ConfigurationError` unless `cuda_devices` is a list of more than one device or
`num_nodes` is greater than 1; when this error is raised no worker process is
spawned and no process group is initialized (the trace holds only the directory
creation and the config dump). -/
theorem train_model_distributed_config_check
    (buildLoop : Params → Nat → TrainModel)
    (evaluateFn : Model → List Inst → Metrics) (weightsExist : Bool)
    (makeVocabTokens : Params → String × String)
    (loadModel : Params → String → Model)
    (params : Params) (serializationDir : String) (nodeRank : Nat)
    (includePackage : Option (List String)) (dp : DistParams)
    (hdist : params.distributed = some dp) :
    (¬ (multiDevice dp.cudaDevices ∨ dp.numNodes.getD 1 > 1) →
      train_model buildLoop evaluateFn weightsExist makeVocabTokens loadModel params
          serializationDir nodeRank includePackage
        = (TrainOutcome.configError,
           [Event.createSerializationDir, Event.writeConfig])
      ∧ ∀ e ∈ (train_model buildLoop evaluateFn weightsExist makeVocabTokens loadModel
            params serializationDir nodeRank includePackage).2,
          e.isSpawn = false ∧ ∀ r w, e ≠ Event.initProcessGroup r w)
    ∧ ((multiDevice dp.cudaDevices ∨ dp.numNodes.getD 1 > 1) →
      (train_model buildLoop evaluateFn weightsExist makeVocabTokens loadModel params
          serializationDir nodeRank includePackage).1 ≠ TrainOutcome.configError) := by
  have hcore : ∀ h : ¬ (multiDevice dp.cudaDevices ∨ dp.numNodes.getD 1 > 1),
      train_model_core buildLoop evaluateFn weightsExist makeVocabTokens loadModel
        params serializationDir nodeRank includePackage
        = (TrainOutcome.configError, []) := by
    intro h
    simp only [train_model_core, hdist]
    rw [if_neg h]
  constructor
  · intro hbad
    have heq : train_model buildLoop evaluateFn weightsExist makeVocabTokens loadModel
        params serializationDir nodeRank includePackage
        = (TrainOutcome.configError,
           [Event.createSerializationDir, Event.writeConfig]) := by
      simp only [train_model, hcore hbad]
    refine ⟨heq, ?_⟩
    rw [heq]
    intro e he
    rcases List.mem_cons.mp he with rfl | he
    · exact ⟨rfl, fun r w => by simp⟩
    · rcases List.mem_cons.mp he with rfl | he
      · exact ⟨rfl, fun r w => by simp⟩
      · cases he
  · intro hgood
    simp only [train_model, train_model_core, hdist]
    rw [if_pos hgood]
    cases hc : dp.cudaDevices with
    | none => simp
    | some ids =>
        by_cases hok : (List.range ids.length).all (fun i =>
            isOkB (train_worker buildLoop evaluateFn weightsExist i
              (distWorkerParams makeVocabTokens params serializationDir)
              serializationDir includePackage nodeRank
              (dp.numNodes.getD 1 * ids.length) (some ids)).1) = true
        · simp [hok]
        · simp [hok]

/-- C1: in `TrainModel.from_partial_objects` the lazy dependencies are resolved in
the fixed order data → vocabulary → model → trainer: the datasets are read first,
the vocabulary is constructed from the read instances, the model is constructed
with that vocabulary (`model.construct(vocab=vocabulary_)`), and the trainer is
constructed last, receiving the constructed model, the iterator, and the
training/validation data. -/
theorem from_partial_objects_construction_order
    (readData : String → List Inst) (vocabFromInstances : List Inst → Vocab)
    (isMaster : Bool) (serializationDir : String) (localRank : Nat)
    (batchWeightKey : String) (trainDataPath : String)
    (model : Vocab → Model) (iterator : Iterator)
    (trainer : Model → Iterator → List Inst → Option (List Inst) → TrainerBase)
    (vocabulary : Option (List Inst → Vocab))
    (datasetsForVocabCreation : Option (List String))
    (validationDataPath : Option String) (validationIterator : Option Iterator)
    (testDataPath : Option String) (evaluateOnTest : Bool)
    (hok : ((datasetsForVocabCreation.getD []).any (fun k =>
        (List.lookup k (read_all_datasets readData trainDataPath validationDataPath
          testDataPath)).isNone)) = false) :
    (TrainModel.from_partial_objects readData vocabFromInstances isMaster
        serializationDir localRank batchWeightKey trainDataPath model iterator trainer
        vocabulary datasetsForVocabCreation validationDataPath validationIterator
        testDataPath evaluateOnTest).2
      = [Event.readDatasets,
         Event.constructVocab
           (vocabCreationInstances
             (read_all_datasets readData trainDataPath validationDataPath testDataPath)
             (datasetsForVocabCreation.getD [])),
         Event.constructModel
           (constructedVocabulary vocabulary vocabFromInstances
             (vocabCreationInstances
               (read_all_datasets readData trainDataPath validationDataPath testDataPath)
               (datasetsForVocabCreation.getD [])))]
        ++ (if isMaster
            then [Event.saveVocabulary (serializationDir ++ "/vocabulary")] else [])
        ++ [Event.indexIterator, Event.indexIterator,
            Event.constructTrainer
              (model (constructedVocabulary vocabulary vocabFromInstances
                (vocabCreationInstances
                  (read_all_datasets readData trainDataPath validationDataPath testDataPath)
                  (datasetsForVocabCreation.getD []))))
              iterator
              (readData trainDataPath)
              (List.lookup "validation"
                (read_all_datasets readData trainDataPath validationDataPath
                  testDataPath))] := by
  simp only [TrainModel.from_partial_objects, hok, Bool.false_eq_true, if_false,
    lookup_train_read_all, Option.getD_some]

/-- The dataset dictionary only ever has the keys "train", "validation", "test". -/
theorem read_all_datasets_keys (readData : String → List Inst) (trainDataPath : String)
    (vp tp : Option String) :
    ∀ kv ∈ read_all_datasets readData trainDataPath vp tp,
      kv.1 = "train" ∨ kv.1 = "validation" ∨ kv.1 = "test" := by
  have hopt : ∀ (k : String) (o : Option String),
      ∀ kv ∈ optDataset readData k o, kv.1 = k := by
    intro k o kv hkv
    cases o with
    | none => cases hkv
    | some p =>
        rcases List.mem_singleton.mp hkv with rfl
        rfl
  intro kv hkv
  rcases List.mem_append.mp hkv with h | h
  · rcases List.mem_append.mp h with h | h
    · rcases List.mem_singleton.mp h with rfl
      exact Or.inl rfl
    · exact Or.inr (Or.inl (hopt "validation" vp kv h))
  · exact Or.inr (Or.inr (hopt "test" tp kv h))

/-- `from_partial_objects` fails exactly when the validity scan of
`datasets_for_vocab_creation` finds a key missing from the dataset dictionary. -/
theorem from_partial_objects_isError
    (readData : String → List Inst) (vocabFromInstances : List Inst → Vocab)
    (isMaster : Bool) (serializationDir : String) (localRank : Nat)
    (batchWeightKey : String) (trainDataPath : String)
    (model : Vocab → Model) (iterator : Iterator)
    (trainer : Model → Iterator → List Inst → Option (List Inst) → TrainerBase)
    (vocabulary : Option (List Inst → Vocab))
    (datasetsForVocabCreation : Option (List String))
    (validationDataPath : Option String) (validationIterator : Option Iterator)
    (testDataPath : Option String) (evaluateOnTest : Bool) :
    (∃ msg, (TrainModel.from_partial_objects readData vocabFromInstances isMaster
        serializationDir localRank batchWeightKey trainDataPath model iterator trainer
        vocabulary datasetsForVocabCreation validationDataPath validationIterator
        testDataPath evaluateOnTest).1 = Except.error msg)
      ↔ ((datasetsForVocabCreation.getD []).any (fun k =>
          (List.lookup k (read_all_datasets readData trainDataPath validationDataPath
            testDataPath)).isNone) = true) := by
  by_cases hc : ((datasetsForVocabCreation.getD []).any (fun k =>
      (List.lookup k (read_all_datasets readData trainDataPath validationDataPath
        testDataPath)).isNone)) = true
  · simp only [TrainModel.from_partial_objects, hc, if_true, hc, iff_true]
    exact ⟨"invalid dataset_for_vocab_creation", rfl⟩
  · have hc' : ((datasetsForVocabCreation.getD []).any (fun k =>
        (List.lookup k (read_all_datasets readData trainDataPath validationDataPath
          testDataPath)).isNone)) = false := by
      exact Bool.not_eq_true _ |>.mp hc
    simp only [TrainModel.from_partial_objects, hc', Bool.false_eq_true, if_false]
    simp

/-- C8: `TrainModel.from_partial_objects` raises a `ConfigurationError` exactly
when `datasets_for_vocab_creation` is non-empty and contains a key that is not
among the datasets actually read (the valid keys — those of `read_all_datasets` —
are at most "train", "validation", "test"); when all keys are valid, only the
instances from the listed datasets are fed to vocabulary construction. -/
theorem from_partial_objects_vocab_keys
    (readData : String → List Inst) (vocabFromInstances : List Inst → Vocab)
    (isMaster : Bool) (serializationDir : String) (localRank : Nat)
    (batchWeightKey : String) (trainDataPath : String)
    (model : Vocab → Model) (iterator : Iterator)
    (trainer : Model → Iterator → List Inst → Option (List Inst) → TrainerBase)
    (vocabulary : Option (List Inst → Vocab))
    (datasetsForVocabCreation : Option (List String))
    (validationDataPath : Option String) (validationIterator : Option Iterator)
    (testDataPath : Option String) (evaluateOnTest : Bool) :
    ((∃ msg, (TrainModel.from_partial_objects readData vocabFromInstances isMaster
        serializationDir localRank batchWeightKey trainDataPath model iterator trainer
        vocabulary datasetsForVocabCreation validationDataPath validationIterator
        testDataPath evaluateOnTest).1 = Except.error msg)
      ↔ ∃ k ∈ datasetsForVocabCreation.getD [],
          List.lookup k (read_all_datasets readData trainDataPath validationDataPath
            testDataPath) = none)
    ∧ (∀ kv ∈ read_all_datasets readData trainDataPath validationDataPath testDataPath,
        kv.1 = "train" ∨ kv.1 = "validation" ∨ kv.1 = "test")
    ∧ (∀ tm, (TrainModel.from_partial_objects readData vocabFromInstances isMaster
          serializationDir localRank batchWeightKey trainDataPath model iterator trainer
          vocabulary datasetsForVocabCreation validationDataPath validationIterator
          testDataPath evaluateOnTest).1 = Except.ok tm →
        datasetsForVocabCreation.getD [] ≠ [] →
        Event.constructVocab
          (((read_all_datasets readData trainDataPath validationDataPath
              testDataPath).filter
            (fun kv => (datasetsForVocabCreation.getD []).contains kv.1)).flatMap
            (fun kv => kv.2))
          ∈ (TrainModel.from_partial_objects readData vocabFromInstances isMaster
              serializationDir localRank batchWeightKey trainDataPath model iterator
              trainer vocabulary datasetsForVocabCreation validationDataPath
              validationIterator testDataPath evaluateOnTest).2) := by
  refine ⟨?_, read_all_datasets_keys readData trainDataPath validationDataPath
    testDataPath, ?_⟩
  · rw [from_partial_objects_isError readData vocabFromInstances isMaster
      serializationDir localRank batchWeightKey trainDataPath model iterator trainer
      vocabulary datasetsForVocabCreation validationDataPath validationIterator
      testDataPath evaluateOnTest]
    simp only [List.any_eq_true, Option.isNone_iff_eq_none]
  · intro tm htm hne
    by_cases hc : ((datasetsForVocabCreation.getD []).any (fun k =>
        (List.lookup k (read_all_datasets readData trainDataPath validationDataPath
          testDataPath)).isNone)) = true
    · exfalso
      have herr : (TrainModel.from_partial_objects readData vocabFromInstances isMaster
          serializationDir localRank batchWeightKey trainDataPath model iterator trainer
          vocabulary datasetsForVocabCreation validationDataPath validationIterator
          testDataPath evaluateOnTest).1
          = Except.error "invalid dataset_for_vocab_creation" := by
        simp only [TrainModel.from_partial_objects, hc, if_true]
      rw [htm] at herr
      cases herr
    · have hc' : ((datasetsForVocabCreation.getD []).any (fun k =>
          (List.lookup k (read_all_datasets readData trainDataPath validationDataPath
            testDataPath)).isNone)) = false := Bool.not_eq_true _ |>.mp hc
      have hL : (datasetsForVocabCreation.getD []).isEmpty = false := by
        cases h : datasetsForVocabCreation.getD [] with
        | nil => exact absurd h hne
        | cons a as => rfl
      have hfilter : vocabCreationInstances
          (read_all_datasets readData trainDataPath validationDataPath testDataPath)
          (datasetsForVocabCreation.getD [])
          = ((read_all_datasets readData trainDataPath validationDataPath
              testDataPath).filter
            (fun kv => (datasetsForVocabCreation.getD []).contains kv.1)).flatMap
            (fun kv => kv.2) := by
        simp [vocabCreationInstances, hL]
      rw [← hfilter]
      simp only [TrainModel.from_partial_objects, hc', Bool.false_eq_true, if_false,
        List.mem_append, List.mem_cons]
      simp

/-- The result of the post-setup worker phase when training is interrupted:
the `KeyboardInterrupt` is re-raised. -/
theorem train_worker_run_interrupt_result
    (buildLoop : Params → Nat → TrainModel)
    (evaluateFn : Model → List Inst → Metrics) (weightsExist : Bool)
    (processRank : Nat) (serializationDir : String) (distributed : Bool)
    (params : Params) (setupEvs : List Event) (e : Unit)
    (hrun : (buildLoop params processRank).run = Except.error e) :
    train_worker_run buildLoop evaluateFn weightsExist processRank serializationDir
        distributed params setupEvs
      = (Except.error WorkerError.keyboardInterrupt,
         setupEvs
         ++ [Event.buildTrainLoop params.vocabulary params.trainer.cudaDevice processRank]
         ++ (if distributed then [Event.barrier] else []) ++ [Event.runTrainer]
         ++ (if processRank == 0 && weightsExist
             then [Event.archiveModel serializationDir] else [])) := by
  simp only [train_worker_run, hrun]

/-- The result of the post-setup worker phase when training completes:
the model is returned exactly when not distributed, and the master runs
`finish`. -/
theorem train_worker_run_ok_result
    (buildLoop : Params → Nat → TrainModel)
    (evaluateFn : Model → List Inst → Metrics) (weightsExist : Bool)
    (processRank : Nat) (serializationDir : String) (distributed : Bool)
    (params : Params) (setupEvs : List Event) (ms : Metrics)
    (hrun : (buildLoop params processRank).run = Except.ok ms) :
    train_worker_run buildLoop evaluateFn weightsExist processRank serializationDir
        distributed params setupEvs
      = (Except.ok (if distributed then none else some (buildLoop params processRank).model),
         setupEvs
         ++ [Event.buildTrainLoop params.vocabulary params.trainer.cudaDevice processRank]
         ++ (if distributed then [Event.barrier] else []) ++ [Event.runTrainer]
         ++ (if processRank == 0
             then ((buildLoop params processRank).finish evaluateFn ms).2 else [])) := by
  simp only [train_worker_run, hrun]

/-- `TrainModel.finish` always records the dump of `metrics.json` under the
loop's serialization directory. -/
theorem finish_dumps_metrics (tm : TrainModel)
    (evaluateFn : Model → List Inst → Metrics) (ms : Metrics) :
    Event.dumpMetrics (tm.serializationDir ++ "/metrics.json")
      ∈ (tm.finish evaluateFn ms).2 := by
  simp only [TrainModel.finish]
  split <;> simp

/-- `TrainModel.finish` records nothing but evaluation and the `metrics.json`
dump. -/
theorem finish_events_shape (tm : TrainModel)
    (evaluateFn : Model → List Inst → Metrics) (ms : Metrics) :
    (tm.finish evaluateFn ms).2 = [Event.evaluate,
        Event.dumpMetrics (tm.serializationDir ++ "/metrics.json")]
    ∨ (tm.finish evaluateFn ms).2 = [Event.dumpMetrics
        (tm.serializationDir ++ "/metrics.json")] := by
  simp only [TrainModel.finish]
  split
  · exact Or.inl rfl
  · exact Or.inr rfl

/-- Unfolding `_train_worker` in distributed mode (`world_size > 1`) with a device
list long enough for this rank: the distributed setup runs in program order —
package imports, env var, `params["trainer"]["cuda_device"] = ids[process_rank]`,
`torch.cuda.set_device`, `init_process_group(rank = node_rank * len(ids) +
process_rank, world_size)` — and then the common phase runs on the mutated
params. -/
theorem train_worker_eq_dist (buildLoop : Params → Nat → TrainModel)
    (evaluateFn : Model → List Inst → Metrics) (weightsExist : Bool)
    (processRank : Nat) (params : Params) (serializationDir : String)
    (includePackage : Option (List String)) (nodeRank : Nat) (worldSize : Nat)
    (ids : List Nat) (hws : 1 < worldSize) (hlen : processRank < ids.length) :
    train_worker buildLoop evaluateFn weightsExist processRank params serializationDir
        includePackage nodeRank worldSize (some ids)
      = train_worker_run buildLoop evaluateFn weightsExist processRank serializationDir
          true
          { params with trainer := { params.trainer with
              cudaDevice := some (ids.get ⟨processRank, hlen⟩)
              worldSize := some worldSize
              distributed := some true } }
          ([Event.prepareLogging processRank worldSize, Event.prepareEnvironment]
           ++ (includePackage.getD []).map Event.importSubmodules
           ++ [Event.setProcsPerNodeEnv ids.length,
               Event.setTrainerCudaDevice (ids.get ⟨processRank, hlen⟩),
               Event.setTorchCudaDevice (ids.get ⟨processRank, hlen⟩),
               Event.initProcessGroup (nodeRank * ids.length + processRank)
                 worldSize]) := by
  have hget : ids[processRank]? = some (ids.get ⟨processRank, hlen⟩) := by
    rw [List.getElem?_eq_getElem hlen, List.get_eq_getElem]
  simp only [train_worker, if_pos hws, hget]

/-- Unfolding `_train_worker` in single-process mode (`world_size ≤ 1`): the
distributed setup is skipped and the common phase runs on the unchanged params. -/
theorem train_worker_eq_single (buildLoop : Params → Nat → TrainModel)
    (evaluateFn : Model → List Inst → Metrics) (weightsExist : Bool)
    (processRank : Nat) (params : Params) (serializationDir : String)
    (includePackage : Option (List String)) (nodeRank : Nat) (worldSize : Nat)
    (distributedDeviceIds : Option (List Nat)) (hws : ¬ 1 < worldSize) :
    train_worker buildLoop evaluateFn weightsExist processRank params serializationDir
        includePackage nodeRank worldSize distributedDeviceIds
      = train_worker_run buildLoop evaluateFn weightsExist processRank serializationDir
          false params
          [Event.prepareLogging processRank worldSize, Event.prepareEnvironment] := by
  simp only [train_worker, if_neg hws]

/-- C7: if training in `_train_worker` is interrupted by a `KeyboardInterrupt`,
the model is archived exactly when the process is the master (`process_rank` 0)
and the default weights file already exists in `serialization_dir`, and the
`KeyboardInterrupt` is re-raised in every case. -/
theorem train_worker_keyboard_interrupt
    (buildLoop : Params → Nat → TrainModel)
    (evaluateFn : Model → List Inst → Metrics) (weightsExist : Bool)
    (processRank : Nat) (params : Params) (serializationDir : String)
    (includePackage : Option (List String)) (nodeRank : Nat) (worldSize : Nat)
    (distributedDeviceIds : Option (List Nat))
    (hcrash : 1 < worldSize →
      ∃ ids, distributedDeviceIds = some ids ∧ processRank < ids.length)
    (hrun : ∀ p r, (buildLoop p r).run = Except.error ()) :
    (train_worker buildLoop evaluateFn weightsExist processRank params
        serializationDir includePackage nodeRank worldSize distributedDeviceIds).1
      = Except.error WorkerError.keyboardInterrupt
    ∧ ((Event.archiveModel serializationDir
          ∈ (train_worker buildLoop evaluateFn weightsExist processRank params
              serializationDir includePackage nodeRank worldSize
              distributedDeviceIds).2)
        ↔ (processRank = 0 ∧ weightsExist = true)) := by
  by_cases hws : 1 < worldSize
  · obtain ⟨ids, hids, hlen⟩ := hcrash hws
    subst hids
    rw [train_worker_eq_dist buildLoop evaluateFn weightsExist processRank params
        serializationDir includePackage nodeRank worldSize ids hws hlen,
      train_worker_run_interrupt_result _ _ _ _ _ _ _ _ () (hrun _ _)]
    refine ⟨rfl, ?_⟩
    by_cases hmw : (processRank == 0 && weightsExist) = true
    · rw [Bool.and_eq_true, beq_iff_eq] at hmw
      simp [hmw.1, hmw.2, List.mem_map]
    · rw [if_neg hmw]
      simp [List.mem_map]
      simpa [Bool.and_eq_true, beq_iff_eq] using hmw
  · rw [train_worker_eq_single buildLoop evaluateFn weightsExist processRank params
        serializationDir includePackage nodeRank worldSize distributedDeviceIds hws,
      train_worker_run_interrupt_result _ _ _ _ _ _ _ _ () (hrun _ _)]
    refine ⟨rfl, ?_⟩
    by_cases hmw : (processRank == 0 && weightsExist) = true
    · rw [Bool.and_eq_true, beq_iff_eq] at hmw
      simp [hmw.1, hmw.2]
    · rw [if_neg hmw]
      simp
      simpa [Bool.and_eq_true, beq_iff_eq] using hmw

/-- C9: `_train_worker` returns the trained model exactly when `world_size` is 1
(non-distributed); for every call with `world_size` greater than 1 it returns
`None`, and the rank-0 (master) process — and only it — calls
`train_loop.finish(metrics)`, which dumps `metrics.json`. -/
theorem train_worker_return_value
    (buildLoop : Params → Nat → TrainModel)
    (evaluateFn : Model → List Inst → Metrics) (weightsExist : Bool)
    (processRank : Nat) (params : Params) (serializationDir : String)
    (includePackage : Option (List String)) (nodeRank : Nat) (worldSize : Nat)
    (distributedDeviceIds : Option (List Nat))
    (hws : 1 ≤ worldSize)
    (hcrash : 1 < worldSize →
      ∃ ids, distributedDeviceIds = some ids ∧ processRank < ids.length)
    (hrun : ∀ p r, ∃ ms, (buildLoop p r).run = Except.ok ms)
    (hsd : ∀ p r, (buildLoop p r).serializationDir = serializationDir) :
    ((∃ m, (train_worker buildLoop evaluateFn weightsExist processRank params
        serializationDir includePackage nodeRank worldSize
        distributedDeviceIds).1 = Except.ok (some m)) ↔ worldSize = 1)
    ∧ (1 < worldSize →
        (train_worker buildLoop evaluateFn weightsExist processRank params
          serializationDir includePackage nodeRank worldSize
          distributedDeviceIds).1 = Except.ok none)
    ∧ ((Event.dumpMetrics (serializationDir ++ "/metrics.json")
          ∈ (train_worker buildLoop evaluateFn weightsExist processRank params
              serializationDir includePackage nodeRank worldSize
              distributedDeviceIds).2)
        ↔ processRank = 0) := by
  by_cases hws2 : 1 < worldSize
  · obtain ⟨ids, hids, hlen⟩ := hcrash hws2
    subst hids
    obtain ⟨ms, hms⟩ := hrun { params with trainer := { params.trainer with
        cudaDevice := some (ids.get ⟨processRank, hlen⟩)
        worldSize := some worldSize
        distributed := some true } } processRank
    rw [train_worker_eq_dist buildLoop evaluateFn weightsExist processRank params
        serializationDir includePackage nodeRank worldSize ids hws2 hlen,
      train_worker_run_ok_result _ _ _ _ _ _ _ _ ms hms]
    refine ⟨?_, fun _ => rfl, ?_⟩
    · simp only [if_true]
      constructor
      · rintro ⟨m, hm⟩
        cases hm
      · intro h1
        omega
    · by_cases h0 : (processRank == 0) = true
      · have h0' : processRank = 0 := by simpa using h0
        rw [if_pos h0]
        have hd := finish_dumps_metrics (buildLoop { params with trainer :=
            { params.trainer with
                cudaDevice := some (ids.get ⟨processRank, hlen⟩)
                worldSize := some worldSize
                distributed := some true } } processRank) evaluateFn ms
        rw [hsd] at hd
        exact ⟨fun _ => h0', fun _ => List.mem_append.mpr (Or.inr hd)⟩
      · rw [if_neg h0]
        have h0' : processRank ≠ 0 := by simpa using h0
        simp [List.mem_map, h0']
  · have hws1 : worldSize = 1 := by omega
    obtain ⟨ms, hms⟩ := hrun params processRank
    rw [train_worker_eq_single buildLoop evaluateFn weightsExist processRank params
        serializationDir includePackage nodeRank worldSize distributedDeviceIds hws2,
      train_worker_run_ok_result _ _ _ _ _ _ _ _ ms hms]
    refine ⟨?_, fun h => absurd h hws2, ?_⟩
    · simp only [if_false, Bool.false_eq_true]
      constructor
      · intro _
        exact hws1
      · intro _
        exact ⟨(buildLoop params processRank).model, rfl⟩
    · by_cases h0 : (processRank == 0) = true
      · have h0' : processRank = 0 := by simpa using h0
        rw [if_pos h0]
        have hd := finish_dumps_metrics (buildLoop params processRank) evaluateFn ms
        rw [hsd] at hd
        exact ⟨fun _ => h0', fun _ => List.mem_append.mpr (Or.inr hd)⟩
      · rw [if_neg h0]
        have h0' : processRank ≠ 0 := by simpa using h0
        simp [h0']

/-- Membership in one worker's event list lifts to the whole spawn section. -/
theorem mem_spawnAll (f : Nat → List Event) {x : Event} :
    ∀ n i, i < n → x ∈ f i → x ∈ spawnAll f n
  | 0, i, h, _ => absurd h (Nat.not_lt_zero i)
  | n + 1, i, h, hx => by
      rcases Nat.lt_succ_iff_lt_or_eq.mp h with h | h
      · exact List.mem_append.mpr (Or.inl (mem_spawnAll f n i h hx))
      · subst h
        exact List.mem_append.mpr (Or.inr hx)

/-- The common worker phase appends its events after the setup events. -/
theorem train_worker_run_trace_prefix (buildLoop : Params → Nat → TrainModel)
    (evaluateFn : Model → List Inst → Metrics) (weightsExist : Bool)
    (processRank : Nat) (serializationDir : String) (distributed : Bool)
    (params : Params) (setupEvs : List Event) :
    ∃ rest, (train_worker_run buildLoop evaluateFn weightsExist processRank
        serializationDir distributed params setupEvs).2 = setupEvs ++ rest := by
  simp only [train_worker_run]
  cases h : (buildLoop params processRank).run with
  | error e =>
      exact ⟨[Event.buildTrainLoop params.vocabulary params.trainer.cudaDevice processRank]
        ++ (if distributed then [Event.barrier] else []) ++ [Event.runTrainer]
        ++ (if processRank == 0 && weightsExist
            then [Event.archiveModel serializationDir] else []),
        by simp [List.append_assoc]⟩
  | ok ms =>
      exact ⟨[Event.buildTrainLoop params.vocabulary params.trainer.cudaDevice processRank]
        ++ (if distributed then [Event.barrier] else []) ++ [Event.runTrainer]
        ++ (if processRank == 0
            then ((buildLoop params processRank).finish evaluateFn ms).2 else []),
        by simp [List.append_assoc]⟩

/-- The common worker phase always records the `TrainModel.from_params` call,
with the vocabulary setting and trainer cuda device of the params it received. -/
theorem train_worker_run_mem_buildTrainLoop (buildLoop : Params → Nat → TrainModel)
    (evaluateFn : Model → List Inst → Metrics) (weightsExist : Bool)
    (processRank : Nat) (serializationDir : String) (distributed : Bool)
    (params : Params) (setupEvs : List Event) :
    Event.buildTrainLoop params.vocabulary params.trainer.cudaDevice processRank
      ∈ (train_worker_run buildLoop evaluateFn weightsExist processRank
          serializationDir distributed params setupEvs).2 := by
  simp only [train_worker_run]
  cases h : (buildLoop params processRank).run <;> simp [List.mem_append]

/-- Unfolding `train_model` in distributed mode with a device list and a valid
configuration: the gpu check and the pre-spawn vocabulary construction come
first, then the serialized spawn section of `len(ids)` workers on
`distWorkerParams` with `world_size = num_nodes * len(ids)`, then — when every
worker succeeded — archival and `Model.load`. -/
theorem train_model_trace_dist (buildLoop : Params → Nat → TrainModel)
    (evaluateFn : Model → List Inst → Metrics) (weightsExist : Bool)
    (makeVocabTokens : Params → String × String)
    (loadModel : Params → String → Model)
    (params : Params) (serializationDir : String) (nodeRank : Nat)
    (includePackage : Option (List String)) (dp : DistParams) (ids : List Nat)
    (hdist : params.distributed = some dp) (hids : dp.cudaDevices = some ids)
    (hvalid : multiDevice dp.cudaDevices ∨ dp.numNodes.getD 1 > 1) :
    (train_model buildLoop evaluateFn weightsExist makeVocabTokens loadModel params
        serializationDir nodeRank includePackage).2
      = [Event.createSerializationDir, Event.writeConfig, Event.checkForGpu,
         Event.makeVocabFromParams]
        ++ (spawnAll (fun i => Event.spawnWorker i
              :: (train_worker buildLoop evaluateFn weightsExist i
                    (distWorkerParams makeVocabTokens params serializationDir)
                    serializationDir includePackage nodeRank
                    (dp.numNodes.getD 1 * ids.length) (some ids)).2) ids.length
            ++ (if (List.range ids.length).all (fun i =>
                  isOkB (train_worker buildLoop evaluateFn weightsExist i
                    (distWorkerParams makeVocabTokens params serializationDir)
                    serializationDir includePackage nodeRank
                    (dp.numNodes.getD 1 * ids.length) (some ids)).1)
                then [Event.archiveModel serializationDir,
                      Event.loadModel serializationDir] else [])) := by
  simp only [train_model, train_model_core, hdist]
  rw [if_pos hvalid]
  simp only [hids]
  rfl

/-- The result of `train_model` in distributed mode with a device list and a
valid configuration. -/
theorem train_model_result_dist (buildLoop : Params → Nat → TrainModel)
    (evaluateFn : Model → List Inst → Metrics) (weightsExist : Bool)
    (makeVocabTokens : Params → String × String)
    (loadModel : Params → String → Model)
    (params : Params) (serializationDir : String) (nodeRank : Nat)
    (includePackage : Option (List String)) (dp : DistParams) (ids : List Nat)
    (hdist : params.distributed = some dp) (hids : dp.cudaDevices = some ids)
    (hvalid : multiDevice dp.cudaDevices ∨ dp.numNodes.getD 1 > 1) :
    (train_model buildLoop evaluateFn weightsExist makeVocabTokens loadModel params
        serializationDir nodeRank includePackage).1
      = (if (List.range ids.length).all (fun i =>
            isOkB (train_worker buildLoop evaluateFn weightsExist i
              (distWorkerParams makeVocabTokens params serializationDir)
              serializationDir includePackage nodeRank
              (dp.numNodes.getD 1 * ids.length) (some ids)).1)
         then TrainOutcome.ok (some (loadModel
            (distWorkerParams makeVocabTokens params serializationDir)
            serializationDir))
         else TrainOutcome.interrupted) := by
  simp only [train_model, train_model_core, hdist]
  rw [if_pos hvalid]
  simp only [hids]

/-- C2: in distributed mode, `train_model` constructs and saves the vocabulary
(`make_vocab_from_params`, which writes it under `serialization_dir`) strictly
before any worker process is spawned, and replaces the `"vocabulary"` entry of
the params by `from_files` pointing at `<serialization_dir>/vocabulary` (with the
padding/OOV tokens of the saved vocabulary), so that every spawned worker builds
its train loop from the on-disk vocabulary instead of rebuilding it. -/
theorem train_model_vocab_before_spawn (buildLoop : Params → Nat → TrainModel)
    (evaluateFn : Model → List Inst → Metrics) (weightsExist : Bool)
    (makeVocabTokens : Params → String × String)
    (loadModel : Params → String → Model)
    (params : Params) (serializationDir : String) (nodeRank : Nat)
    (includePackage : Option (List String)) (dp : DistParams) (ids : List Nat)
    (hdist : params.distributed = some dp) (hids : dp.cudaDevices = some ids)
    (hvalid : multiDevice dp.cudaDevices ∨ dp.numNodes.getD 1 > 1) :
    Event.makeVocabFromParams
      ∈ ((train_model buildLoop evaluateFn weightsExist makeVocabTokens loadModel
          params serializationDir nodeRank includePackage).2.takeWhile
          (fun e => !e.isSpawn))
    ∧ ∀ i, i < ids.length →
        ∃ c, Event.buildTrainLoop
            (VocabSetting.fromFiles (serializationDir ++ "/vocabulary")
              (makeVocabTokens { params with distributed := none }).1
              (makeVocabTokens { params with distributed := none }).2)
            c i
          ∈ (train_model buildLoop evaluateFn weightsExist makeVocabTokens loadModel
              params serializationDir nodeRank includePackage).2 := by
  have htr := train_model_trace_dist buildLoop evaluateFn weightsExist makeVocabTokens
    loadModel params serializationDir nodeRank includePackage dp ids hdist hids hvalid
  constructor
  · rw [htr]
    refine mem_takeWhile_append (by simp) ?_ _
    intro x hx
    simp only [List.mem_cons, List.not_mem_nil, or_false] at hx
    rcases hx with rfl | rfl | rfl | rfl <;> rfl
  · intro i hi
    by_cases hws : 1 < dp.numNodes.getD 1 * ids.length
    · refine ⟨some (ids.get ⟨i, hi⟩), ?_⟩
      rw [htr]
      refine List.mem_append.mpr (Or.inr (List.mem_append.mpr (Or.inl ?_)))
      refine mem_spawnAll _ ids.length i hi (List.mem_cons_of_mem _ ?_)
      rw [train_worker_eq_dist buildLoop evaluateFn weightsExist i
        (distWorkerParams makeVocabTokens params serializationDir) serializationDir
        includePackage nodeRank (dp.numNodes.getD 1 * ids.length) ids hws hi]
      exact train_worker_run_mem_buildTrainLoop buildLoop evaluateFn weightsExist i
        serializationDir true _ _
    · refine ⟨(distWorkerParams makeVocabTokens params serializationDir).trainer.cudaDevice, ?_⟩
      rw [htr]
      refine List.mem_append.mpr (Or.inr (List.mem_append.mpr (Or.inl ?_)))
      refine mem_spawnAll _ ids.length i hi (List.mem_cons_of_mem _ ?_)
      rw [train_worker_eq_single buildLoop evaluateFn weightsExist i
        (distWorkerParams makeVocabTokens params serializationDir) serializationDir
        includePackage nodeRank (dp.numNodes.getD 1 * ids.length) (some ids) hws]
      exact train_worker_run_mem_buildTrainLoop buildLoop evaluateFn weightsExist i
        serializationDir false _ _

/-- C3: for every spawned worker, the global rank passed to
`init_process_group` equals `node_rank * len(distributed_device_ids) +
process_rank` and the world size equals `num_nodes * len(cuda_devices)`; the
worker is assigned the GPU id `distributed_device_ids[process_rank]`
(`torch.cuda.set_device`), and that id is written into
`params["trainer"]["cuda_device"]` before the process group is initialized
(the events appear adjacently in this order inside the worker's segment of the
trace). -/
theorem train_model_worker_rank_assignment (buildLoop : Params → Nat → TrainModel)
    (evaluateFn : Model → List Inst → Metrics) (weightsExist : Bool)
    (makeVocabTokens : Params → String × String)
    (loadModel : Params → String → Model)
    (params : Params) (serializationDir : String) (nodeRank : Nat)
    (includePackage : Option (List String)) (dp : DistParams) (ids : List Nat)
    (hdist : params.distributed = some dp) (hids : dp.cudaDevices = some ids)
    (hvalid : multiDevice dp.cudaDevices ∨ dp.numNodes.getD 1 > 1)
    (hnodes : 1 ≤ dp.numNodes.getD 1) :
    ∀ i (hi : i < ids.length),
      ∃ pre post,
        (train_model buildLoop evaluateFn weightsExist makeVocabTokens loadModel
            params serializationDir nodeRank includePackage).2
          = pre
            ++ ([Event.spawnWorker i,
                 Event.prepareLogging i (dp.numNodes.getD 1 * ids.length),
                 Event.prepareEnvironment]
                ++ (includePackage.getD []).map Event.importSubmodules
                ++ [Event.setProcsPerNodeEnv ids.length,
                    Event.setTrainerCudaDevice (ids.get ⟨i, hi⟩),
                    Event.setTorchCudaDevice (ids.get ⟨i, hi⟩),
                    Event.initProcessGroup (nodeRank * ids.length + i)
                      (dp.numNodes.getD 1 * ids.length)])
            ++ post := by
  intro i hi
  have hws : 1 < dp.numNodes.getD 1 * ids.length := by
    rcases hvalid with h | h
    · rw [hids] at h
      have h2 : 1 < ids.length := by simpa [multiDevice] using h
      have h3 := Nat.mul_le_mul hnodes (Nat.le_refl ids.length)
      rw [Nat.one_mul] at h3
      exact Nat.lt_of_lt_of_le h2 h3
    · have hpos : 1 ≤ ids.length := Nat.lt_of_le_of_lt (Nat.zero_le i) hi
      have h3 := Nat.mul_le_mul (Nat.le_refl (dp.numNodes.getD 1)) hpos
      rw [Nat.mul_one] at h3
      exact Nat.lt_of_lt_of_le h h3
  have htr := train_model_trace_dist buildLoop evaluateFn weightsExist makeVocabTokens
    loadModel params serializationDir nodeRank includePackage dp ids hdist hids hvalid
  obtain ⟨pre0, post0, hsplit⟩ := spawnAll_split
    (fun j => Event.spawnWorker j
      :: (train_worker buildLoop evaluateFn weightsExist j
            (distWorkerParams makeVocabTokens params serializationDir)
            serializationDir includePackage nodeRank
            (dp.numNodes.getD 1 * ids.length) (some ids)).2) ids.length i hi
  have hworker := train_worker_eq_dist buildLoop evaluateFn weightsExist i
    (distWorkerParams makeVocabTokens params serializationDir) serializationDir
    includePackage nodeRank (dp.numNodes.getD 1 * ids.length) ids hws hi
  obtain ⟨rest, hrest⟩ := train_worker_run_trace_prefix buildLoop evaluateFn
    weightsExist i serializationDir true
    { distWorkerParams makeVocabTokens params serializationDir with trainer :=
        { (distWorkerParams makeVocabTokens params serializationDir).trainer with
            cudaDevice := some (ids.get ⟨i, hi⟩)
            worldSize := some (dp.numNodes.getD 1 * ids.length)
            distributed := some true } }
    ([Event.prepareLogging i (dp.numNodes.getD 1 * ids.length),
      Event.prepareEnvironment]
     ++ (includePackage.getD []).map Event.importSubmodules
     ++ [Event.setProcsPerNodeEnv ids.length,
         Event.setTrainerCudaDevice (ids.get ⟨i, hi⟩),
         Event.setTorchCudaDevice (ids.get ⟨i, hi⟩),
         Event.initProcessGroup (nodeRank * ids.length + i)
           (dp.numNodes.getD 1 * ids.length)])
  have hwt : (train_worker buildLoop evaluateFn weightsExist i
      (distWorkerParams makeVocabTokens params serializationDir) serializationDir
      includePackage nodeRank (dp.numNodes.getD 1 * ids.length) (some ids)).2
      = ([Event.prepareLogging i (dp.numNodes.getD 1 * ids.length),
          Event.prepareEnvironment]
         ++ (includePackage.getD []).map Event.importSubmodules
         ++ [Event.setProcsPerNodeEnv ids.length,
             Event.setTrainerCudaDevice (ids.get ⟨i, hi⟩),
             Event.setTorchCudaDevice (ids.get ⟨i, hi⟩),
             Event.initProcessGroup (nodeRank * ids.length + i)
               (dp.numNodes.getD 1 * ids.length)]) ++ rest := by
    rw [hworker]
    exact hrest
  refine ⟨[Event.createSerializationDir, Event.writeConfig, Event.checkForGpu,
      Event.makeVocabFromParams] ++ pre0,
    rest ++ (post0
      ++ (if (List.range ids.length).all (fun j =>
            isOkB (train_worker buildLoop evaluateFn weightsExist j
              (distWorkerParams makeVocabTokens params serializationDir)
              serializationDir includePackage nodeRank
              (dp.numNodes.getD 1 * ids.length) (some ids)).1)
          then [Event.archiveModel serializationDir,
                Event.loadModel serializationDir] else [])), ?_⟩
  rw [htr, hsplit, hwt]
  simp [List.append_assoc]

/-- C4: `train_model` runs a single in-process training worker (`process_rank` 0)
when the params contain no `"distributed"` key, and otherwise spawns
`len(cuda_devices)` worker processes; in both branches it archives the model in
`serialization_dir` after training completes, and returns a model — the worker's
model in the single-process case, `Model.load(params, serialization_dir)` in the
distributed case. -/
theorem train_model_branching_and_archive (buildLoop : Params → Nat → TrainModel)
    (evaluateFn : Model → List Inst → Metrics) (weightsExist : Bool)
    (makeVocabTokens : Params → String × String)
    (loadModel : Params → String → Model)
    (params : Params) (serializationDir : String) (nodeRank : Nat)
    (includePackage : Option (List String)) :
    (params.distributed = none →
      ∀ ms, (buildLoop params 0).run = Except.ok ms →
      (train_model buildLoop evaluateFn weightsExist makeVocabTokens loadModel params
          serializationDir nodeRank includePackage).1
        = TrainOutcome.ok (some ((buildLoop params 0).model))
      ∧ ∃ mid,
          (train_model buildLoop evaluateFn weightsExist makeVocabTokens loadModel
              params serializationDir nodeRank includePackage).2
            = [Event.createSerializationDir, Event.writeConfig] ++ mid
              ++ [Event.archiveModel serializationDir]
          ∧ Event.runTrainer ∈ mid
          ∧ Event.buildTrainLoop params.vocabulary params.trainer.cudaDevice 0 ∈ mid)
    ∧ (∀ dp ids, params.distributed = some dp → dp.cudaDevices = some ids →
        (multiDevice dp.cudaDevices ∨ dp.numNodes.getD 1 > 1) →
        ((List.range ids.length).all (fun i =>
          isOkB (train_worker buildLoop evaluateFn weightsExist i
            (distWorkerParams makeVocabTokens params serializationDir)
            serializationDir includePackage nodeRank
            (dp.numNodes.getD 1 * ids.length) (some ids)).1)) = true →
        (train_model buildLoop evaluateFn weightsExist makeVocabTokens loadModel params
            serializationDir nodeRank includePackage).1
          = TrainOutcome.ok (some (loadModel
              (distWorkerParams makeVocabTokens params serializationDir)
              serializationDir))
        ∧ (train_model buildLoop evaluateFn weightsExist makeVocabTokens loadModel
            params serializationDir nodeRank includePackage).2
          = [Event.createSerializationDir, Event.writeConfig, Event.checkForGpu,
             Event.makeVocabFromParams]
            ++ (spawnAll (fun i => Event.spawnWorker i
                  :: (train_worker buildLoop evaluateFn weightsExist i
                        (distWorkerParams makeVocabTokens params serializationDir)
                        serializationDir includePackage nodeRank
                        (dp.numNodes.getD 1 * ids.length) (some ids)).2) ids.length
                ++ [Event.archiveModel serializationDir,
                    Event.loadModel serializationDir])) := by
  constructor
  · intro hdist0 ms hms
    obtain ⟨d, v, t, r⟩ := params
    simp only [Params.distributed] at hdist0
    subst hdist0
    have hws1 : ¬ (1 : Nat) < 1 := by omega
    have hw := train_worker_eq_single buildLoop evaluateFn weightsExist 0
      (Params.mk none v t r) serializationDir includePackage 0 1 none hws1
    have hwr := train_worker_run_ok_result buildLoop evaluateFn weightsExist 0
      serializationDir false (Params.mk none v t r)
      [Event.prepareLogging 0 1, Event.prepareEnvironment] ms hms
    constructor
    · simp only [train_model, train_model_core]
      rw [hw, hwr]
      simp
    · refine ⟨[Event.prepareLogging 0 1, Event.prepareEnvironment,
        Event.buildTrainLoop v t.cudaDevice 0, Event.runTrainer]
        ++ ((buildLoop (Params.mk none v t r) 0).finish evaluateFn ms).2, ?_, ?_, ?_⟩
      · simp only [train_model, train_model_core]
        rw [hw, hwr]
        simp [List.append_assoc]
      · simp
      · simp [Params.vocabulary, Params.trainer]
  · intro dp ids hdist hids hvalid hallok
    have htr := train_model_trace_dist buildLoop evaluateFn weightsExist makeVocabTokens
      loadModel params serializationDir nodeRank includePackage dp ids hdist hids hvalid
    have hres := train_model_result_dist buildLoop evaluateFn weightsExist makeVocabTokens
      loadModel params serializationDir nodeRank includePackage dp ids hdist hids hvalid
    constructor
    · rw [hres, if_pos hallok]
    · rw [htr, if_pos hallok]

/-! ## Concrete fixtures for witnesses -/

/-- A trainer whose training completes with fixed metrics. -/
def wTrainerOk : TrainerBase := { trainResult := Except.ok [("loss", 1)], cudaDevice := 0 }

/-- A trainer whose training is interrupted. -/
def wTrainerKI : TrainerBase := { trainResult := Except.error (), cudaDevice := 0 }

/-- A train loop that completes. -/
def wLoopOk : TrainModel :=
  { serializationDir := "out", model := 7, trainer := wTrainerOk,
    evaluationDataset := none, evaluationIterator := 0,
    evaluateOnTest := false, batchWeightKey := "" }

/-- A train loop that is interrupted. -/
def wLoopKI : TrainModel := { wLoopOk with trainer := wTrainerKI }

/-- A loop builder that always completes. -/
def wBuildLoopOk : Params → Nat → TrainModel := fun _ _ => wLoopOk

/-- A loop builder that is always interrupted. -/
def wBuildLoopKI : Params → Nat → TrainModel := fun _ _ => wLoopKI

/-- A trivial evaluation function. -/
def wEval : Model → List Inst → Metrics := fun _ _ => []

/-- Fixed padding/OOV tokens for `make_vocab_from_params`. -/
def wTokens : Params → String × String := fun _ => ("@@PADDING@@", "@@UNKNOWN@@")

/-- A trivial `Model.load`. -/
def wLoad : Params → String → Model := fun _ _ => 3

/-- A two-GPU distributed configuration. -/
def wDistParams : DistParams :=
  { cudaDevices := some [0, 1], numNodes := none,
    masterAddress := none, masterPort := none }

/-- Params with a `"distributed"` key listing two cuda devices. -/
def wParamsDist : Params :=
  { distributed := some wDistParams, vocabulary := VocabSetting.fromConfig 0,
    trainer := { cudaDevice := none, worldSize := none, distributed := none },
    rest := 0 }

/-- Params without a `"distributed"` key. -/
def wParamsSingle : Params := { wParamsDist with distributed := none }

/-- Params whose `"distributed"` key lists a single cuda device. -/
def wParamsBad : Params :=
  { wParamsDist with distributed := some { wDistParams with cudaDevices := some [0] } }

/-! ## Witnesses -/

/-- Witness for C1 at a one-dataset configuration. -/
theorem from_partial_objects_construction_order_witness :
    (TrainModel.from_partial_objects (fun _ => [1, 2]) (fun l => l.length) true "out" 0
        "" "t" (fun vc => vc + 1) 0
        (fun m _ _ _ => { trainResult := Except.ok [], cudaDevice := m })
        none none none none none false).2
      = [Event.readDatasets, Event.constructVocab [1, 2], Event.constructModel 2,
         Event.saveVocabulary ("out" ++ "/vocabulary"), Event.indexIterator,
         Event.indexIterator, Event.constructTrainer 3 0 [1, 2] none] :=
  from_partial_objects_construction_order (fun _ => [1, 2]) (fun l => l.length) true
    "out" 0 "" "t" (fun vc => vc + 1) 0
    (fun m _ _ _ => { trainResult := Except.ok [], cudaDevice := m })
    none none none none none false (by decide)

/-- Witness for C2 at the two-GPU configuration. -/
theorem train_model_vocab_before_spawn_witness :
    Event.makeVocabFromParams
      ∈ ((train_model wBuildLoopOk wEval false wTokens wLoad wParamsDist "out" 0
          none).2.takeWhile (fun e => !e.isSpawn))
    ∧ ∃ c, Event.buildTrainLoop
        (VocabSetting.fromFiles ("out" ++ "/vocabulary") "@@PADDING@@" "@@UNKNOWN@@")
        c 0
        ∈ (train_model wBuildLoopOk wEval false wTokens wLoad wParamsDist "out" 0
            none).2 :=
  ⟨(train_model_vocab_before_spawn wBuildLoopOk wEval false wTokens wLoad wParamsDist
      "out" 0 none wDistParams [0, 1] rfl rfl (by decide)).1,
   (train_model_vocab_before_spawn wBuildLoopOk wEval false wTokens wLoad wParamsDist
      "out" 0 none wDistParams [0, 1] rfl rfl (by decide)).2 0 (by decide)⟩

/-- Witness for C3: worker 0 of the two-GPU configuration gets gpu 0 and global
rank 0 in a world of size 2. -/
theorem train_model_worker_rank_assignment_witness :
    ∃ pre post,
      (train_model wBuildLoopOk wEval false wTokens wLoad wParamsDist "out" 0
          none).2
        = pre
          ++ ([Event.spawnWorker 0, Event.prepareLogging 0 2,
               Event.prepareEnvironment]
              ++ ([] : List String).map Event.importSubmodules
              ++ [Event.setProcsPerNodeEnv 2, Event.setTrainerCudaDevice 0,
                  Event.setTorchCudaDevice 0, Event.initProcessGroup 0 2])
          ++ post :=
  train_model_worker_rank_assignment wBuildLoopOk wEval false wTokens wLoad
    wParamsDist "out" 0 none wDistParams [0, 1] rfl rfl (by decide) (by decide)
    0 (by decide)

/-- Witness for C4: both branches at concrete inputs. -/
theorem train_model_branching_and_archive_witness :
    (train_model wBuildLoopOk wEval false wTokens wLoad wParamsSingle "out" 0
        none).1 = TrainOutcome.ok (some 7)
    ∧ (train_model wBuildLoopOk wEval false wTokens wLoad wParamsDist "out" 0
        none).1 = TrainOutcome.ok (some 3) :=
  ⟨((train_model_branching_and_archive wBuildLoopOk wEval false wTokens wLoad
      wParamsSingle "out" 0 none).1 rfl [("loss", 1)] rfl).1,
   ((train_model_branching_and_archive wBuildLoopOk wEval false wTokens wLoad
      wParamsDist "out" 0 none).2 wDistParams [0, 1] rfl rfl (by decide)
      (by decide)).1⟩

/-- Witness for C7 at a single-process interrupted run with weights on disk. -/
theorem train_worker_keyboard_interrupt_witness :
    (train_worker wBuildLoopKI wEval true 0 wParamsSingle "out" none 0 1 none).1
      = Except.error WorkerError.keyboardInterrupt
    ∧ ((Event.archiveModel "out"
          ∈ (train_worker wBuildLoopKI wEval true 0 wParamsSingle "out" none 0 1
              none).2)
        ↔ (0 = 0 ∧ true = true)) :=
  train_worker_keyboard_interrupt wBuildLoopKI wEval true 0 wParamsSingle "out" none
    0 1 none (fun h => absurd h (by decide)) (fun _ _ => rfl)

/-- Witness for C8 at a configuration with a validation set and
`datasets_for_vocab_creation = ["train"]`. -/
theorem from_partial_objects_vocab_keys_witness :
    Event.constructVocab [1, 2]
      ∈ (TrainModel.from_partial_objects (fun _ => [1, 2]) (fun l => l.length) true
          "out" 0 "" "t" (fun vc => vc + 1) 0
          (fun m _ _ _ => { trainResult := Except.ok [], cudaDevice := m })
          none (some ["train"]) (some "v") none none false).2 := by
  have h := (from_partial_objects_vocab_keys (fun _ => [1, 2]) (fun l => l.length)
    true "out" 0 "" "t" (fun vc => vc + 1) 0
    (fun m _ _ _ => { trainResult := Except.ok [], cudaDevice := m })
    none (some ["train"]) (some "v") none none false).2.2
  exact h
    { serializationDir := "out", model := 3,
      trainer := { trainResult := Except.ok [], cudaDevice := 3 },
      evaluationDataset := none, evaluationIterator := 0,
      evaluateOnTest := false, batchWeightKey := "" }
    rfl (by decide)

/-- Witness for C9 at a completed single-process run. -/
theorem train_worker_return_value_witness :
    ((∃ m, (train_worker wBuildLoopOk wEval false 0 wParamsSingle "out" none 0 1
        none).1 = Except.ok (some m)) ↔ 1 = 1)
    ∧ ((Event.dumpMetrics ("out" ++ "/metrics.json")
          ∈ (train_worker wBuildLoopOk wEval false 0 wParamsSingle "out" none 0 1
              none).2)
        ↔ 0 = 0) :=
  ⟨(train_worker_return_value wBuildLoopOk wEval false 0 wParamsSingle "out" none 0 1
      none (by decide) (fun h => absurd h (by decide))
      (fun _ _ => ⟨[("loss", 1)], rfl⟩) (fun _ _ => rfl)).1,
   (train_worker_return_value wBuildLoopOk wEval false 0 wParamsSingle "out" none 0 1
      none (by decide) (fun h => absurd h (by decide))
      (fun _ _ => ⟨[("loss", 1)], rfl⟩) (fun _ _ => rfl)).2.2⟩

/-- Witness for C10 at a single-device distributed configuration. -/
theorem train_model_distributed_config_check_witness :
    (train_model wBuildLoopOk wEval false wTokens wLoad wParamsBad "out" 0 none)
      = (TrainOutcome.configError,
         [Event.createSerializationDir, Event.writeConfig]) :=
  (((train_model_distributed_config_check wBuildLoopOk wEval false wTokens wLoad
      wParamsBad "out" 0 none { wDistParams with cudaDevices := some [0] } rfl).1
    (by decide)).1)
